import Mathlib

/-!
# vdo.ninja-audience: the display surface and the manual-link dialog

A shallow embedding of `src/main.js` (settings menu, `loadUrlIntoIframe`, the
`url-updated` listener, the menu buttons) and of `src/manual_link.js` (the
save, cancel and password-toggle handlers).

* The DOM is a record of the elements the scripts touch.
* An `async` handler is a state-passing computation that either completes or
  throws; `await` is sequencing, `try/catch` is `Js.tryCatch`.
* The Rust backend behind `invoke` is not part of the front-end sources: it is
  a parameter `Backend σ`, an arbitrary function from a command and a backend
  state to a settled promise and a new backend state.
* Every `invoke` is recorded, with how it settled, in `World.calls`; every
  `console.log`/`console.error` is recorded in `World.console`.
* The window API call `appWindow.close()` is, like the backend, outside the
  sources: how it settles is a parameter of the handlers that call it.
* DOM lookups are taken to succeed; a handler runs to its end before the next
  one starts.
* The handler that opens the dialog window and the delayed `closeMenu` of the
  menu items only create a window or call `closeMenu`; they are left out.
-/

namespace VdoNinjaAudience

/-! ## JavaScript values and the handler monad -/

/-- The JavaScript values that cross the `invoke`/event boundary here: nothing
(`undefined`, `null`) or a string. -/
inductive JsVal where
  | undefined
  | null
  | str (s : String)
  deriving DecidableEq, Repr

/-- JavaScript truthiness, as tested by `if (url)` and `if (pushId)`. -/
def JsVal.truthy : JsVal → Bool
  | .undefined => false
  | .null => false
  | .str s => s != ""

/-- A handler body over a world `W`: it ends normally with a value or throws a
string, and in both cases leaves a world behind. -/
def Js (W : Type) (α : Type) : Type := W → Except String α × W

/-- Normal completion. -/
def Js.pure {W α : Type} (a : α) : Js W α := fun w => (Except.ok a, w)

/-- Sequencing (`;` and `await`): a throw skips the rest. -/
def Js.bind {W α β : Type} (m : Js W α) (f : α → Js W β) : Js W β := fun w =>
  match m w with
  | (Except.ok a, w1) => f a w1
  | (Except.error e, w1) => (Except.error e, w1)

/-- The `try { body } catch (error) { handler }` statement. -/
def Js.tryCatch {W α : Type} (body : Js W α) (handler : String → Js W α) : Js W α := fun w =>
  match body w with
  | (Except.ok a, w1) => (Except.ok a, w1)
  | (Except.error e, w1) => handler e w1

instance {W : Type} : Monad (Js W) where
  pure := Js.pure
  bind := Js.bind

/-! ## The backend and the world -/

/-- The backend commands the two scripts invoke, with their arguments. -/
inductive Command where
  | load_decrypted_url_from_config_command
  | generate_new_random_link
  | set_and_save_vdo_ninja_link (pushId audience : String)
  deriving DecidableEq, Repr

/-- The Rust side of `invoke`, left arbitrary: a command and a backend state
give a settled promise (resolved value or rejection) and a new state. -/
abbrev Backend (σ : Type) : Type := Command → σ → Except String JsVal × σ

/-- One recorded `invoke`: the command and how its promise settled. -/
structure Call where
  cmd : Command
  result : Except String JsVal

/-- Console methods used by the scripts. -/
inductive LogLevel where
  | log
  | error
  deriving DecidableEq, Repr

/-- One console line `console.<level>(message, arg)`. -/
structure LogEntry where
  level : LogLevel
  message : String
  arg : JsVal
  deriving DecidableEq, Repr

/-- A window (its DOM `D`), its console, the record of its `invoke` calls and
the backend state. -/
structure World (D σ : Type) where
  dom : D
  console : List LogEntry
  calls : List Call
  backend : σ

/-- The call `invoke(cmd, args)`: runs the backend, records the call, and
resolves or rejects as the backend says. -/
def invoke {D σ : Type} (B : Backend σ) (cmd : Command) : Js (World D σ) JsVal := fun w =>
  let r := B cmd w.backend
  (r.1, { w with calls := w.calls ++ [Call.mk cmd r.1], backend := r.2 })

/-- The call `console.log(message, arg)`. -/
def consoleLog {D σ : Type} (message : String) (arg : JsVal) : Js (World D σ) Unit := fun w =>
  (Except.ok (), { w with console := w.console ++ [LogEntry.mk LogLevel.log message arg] })

/-- The call `console.error(message, arg)`. -/
def consoleError {D σ : Type} (message : String) (arg : JsVal) : Js (World D σ) Unit := fun w =>
  (Except.ok (), { w with console := w.console ++ [LogEntry.mk LogLevel.error message arg] })

/-- A synchronous DOM update. -/
def modifyDom {D σ : Type} (f : D → D) : Js (World D σ) Unit := fun w =>
  (Except.ok (), { w with dom := f w.dom })

/-- A DOM read. -/
def readDom {D σ α : Type} (f : D → α) : Js (World D σ) α := fun w =>
  (Except.ok (f w.dom), w)

/-! ## `main.js` -/

/-- A `classList`: the class names of an element, in order. -/
abbrev ClassList : Type := List String

/-- The method `classList.contains(token)`. -/
def ClassList.contains (cl : ClassList) (token : String) : Bool := decide (token ∈ cl)

/-- The method `classList.add(token)`: appends the token unless present. -/
def ClassList.add (cl : ClassList) (token : String) : ClassList :=
  if token ∈ cl then cl else cl ++ [token]

/-- The method `classList.remove(token)`. -/
def ClassList.remove (cl : ClassList) (token : String) : ClassList :=
  cl.filter (fun t => t != token)

/-- The elements of the main window that `main.js` reads or writes.
`vdoNinjaIframeSrc` is the value last assigned to `vdoNinjaIframe.src`. -/
structure Page where
  settingsBtn : ClassList
  settingsMenu : ClassList
  menuOverlay : ClassList
  vdoNinjaIframeSrc : JsVal

/-- Source function `openMenu`. -/
def openMenu (p : Page) : Page :=
  { p with
    settingsMenu := p.settingsMenu.add "show"
    menuOverlay := p.menuOverlay.add "show"
    settingsBtn := p.settingsBtn.add "active" }

/-- Source function `closeMenu`. -/
def closeMenu (p : Page) : Page :=
  { p with
    settingsMenu := p.settingsMenu.remove "show"
    menuOverlay := p.menuOverlay.remove "show"
    settingsBtn := p.settingsBtn.remove "active" }

/-- Source function `toggleMenu`. -/
def toggleMenu (p : Page) : Page :=
  let isOpen := p.settingsMenu.contains "show"
  if isOpen then closeMenu p else openMenu p

/-- The three menu functions, as the steps of a menu history. -/
inductive MenuOp where
  | openMenu
  | closeMenu
  | toggleMenu
  deriving DecidableEq, Repr

/-- One menu step. -/
def MenuOp.apply : MenuOp → Page → Page
  | .openMenu => VdoNinjaAudience.openMenu
  | .closeMenu => VdoNinjaAudience.closeMenu
  | .toggleMenu => VdoNinjaAudience.toggleMenu

/-- A sequence of menu steps, first step first. -/
def runMenu (ops : List MenuOp) (p : Page) : Page :=
  ops.foldl (fun q op => op.apply q) p

/-- The assignment `vdoNinjaIframe.src = v`. -/
def setIframeSrc {σ : Type} (v : JsVal) : Js (World Page σ) Unit :=
  modifyDom (fun p => { p with vdoNinjaIframeSrc := v })

/-- Source function `loadUrlIntoIframe`. -/
def loadUrlIntoIframe {σ : Type} (B : Backend σ) : Js (World Page σ) Unit :=
  Js.tryCatch
    (do
      let url ← invoke B Command.load_decrypted_url_from_config_command
      if url.truthy then
        setIframeSrc url
        consoleLog "Loaded URL into iframe:" url
      else
        let _ ← invoke B Command.generate_new_random_link
        let newUrl ← invoke B Command.load_decrypted_url_from_config_command
        setIframeSrc newUrl
        consoleLog "Generated and loaded new URL:" newUrl)
    (fun error => consoleError "Error loading URL:" (JsVal.str error))

/-- The listener registered by `listen("url-updated", ...)`, run on an event
with the given payload. -/
def onUrlUpdated {σ : Type} (payload : JsVal) : Js (World Page σ) Unit := do
  consoleLog "URL updated event received:" payload
  setIframeSrc payload

/-- The listener run on a sequence of events in delivery order; the world
after the last one. -/
def onUrlUpdatedAll {σ : Type} (payloads : List JsVal) (w : World Page σ) : World Page σ :=
  payloads.foldl (fun v payload => (onUrlUpdated payload v).2) w

/-- The click handler of `generateLinkBtn`. -/
def generateLinkBtnClick {σ : Type} (B : Backend σ) : Js (World Page σ) Unit := do
  modifyDom closeMenu
  let _ ← invoke B Command.generate_new_random_link
  pure ()

/-- The click handler of `refreshBtn`. -/
def refreshBtnClick {σ : Type} (B : Backend σ) : Js (World Page σ) Unit := do
  modifyDom closeMenu
  loadUrlIntoIframe B

/-! ## `manual_link.js` -/

/-- The elements of the dialog window that `manual_link.js` reads or writes,
and whether the window has been closed. -/
structure Dialog where
  push_id : String
  audience : String
  audienceType : String
  togglePasswordBtnText : String
  errorMessage : String
  closed : Bool
  deriving DecidableEq, Repr

/-- The call `appWindow.close()`, settling as the window API says
(`closeResult`): it resolves and the dialog window is closed, or it rejects
and the window stays as it is. -/
def appWindowClose {σ : Type} (closeResult : Except String Unit) :
    Js (World Dialog σ) Unit := fun w =>
  match closeResult with
  | Except.ok _ => (Except.ok (), { w with dom := { w.dom with closed := true } })
  | Except.error e => (Except.error e, w)

/-- The assignment `errorMessageDiv.textContent = text`. -/
def setErrorMessage {σ : Type} (text : String) : Js (World Dialog σ) Unit :=
  modifyDom (fun d => { d with errorMessage := text })

/-- The click handler of `togglePasswordBtn`. -/
def togglePasswordBtnClick {σ : Type} : Js (World Dialog σ) Unit :=
  modifyDom (fun d =>
    if d.audienceType = "password" then
      { d with audienceType := "text", togglePasswordBtnText := "🙈" }
    else
      { d with audienceType := "password", togglePasswordBtnText := "👁️" })

/-- The click handler of `save-btn`. -/
def saveBtnClick {σ : Type} (B : Backend σ) (closeResult : Except String Unit) :
    Js (World Dialog σ) Unit := do
  let pushId ← readDom Dialog.push_id
  let audience ← readDom Dialog.audience
  setErrorMessage ""
  if (JsVal.str pushId).truthy then
    Js.tryCatch
      (do
        let _ ← invoke B (Command.set_and_save_vdo_ninja_link pushId audience)
        appWindowClose closeResult)
      (fun error => setErrorMessage error)
  else
    setErrorMessage "Push ID (Room Name) is required."

/-- The click handler of `cancel-btn`. -/
def cancelBtnClick {σ : Type} (closeResult : Except String Unit) : Js (World Dialog σ) Unit :=
  appWindowClose closeResult

/-! ## Observations used in the statements -/

/-- Whether the settings menu carries its marker class `show`. -/
def Page.menuShow (p : Page) : Bool := p.settingsMenu.contains "show"

/-- Whether the overlay carries its marker class `show`. -/
def Page.overlayShow (p : Page) : Bool := p.menuOverlay.contains "show"

/-- Whether the settings button carries its marker class `active`. -/
def Page.btnActive (p : Page) : Bool := p.settingsBtn.contains "active"

/-- The command the save handler sends for the current field values. -/
def Dialog.saveCommand (d : Dialog) : Command :=
  Command.set_and_save_vdo_ninja_link d.push_id d.audience

/-- The calls recorded between the world `before` and the later world `after`. -/
def callsSince {D σ : Type} (before after : World D σ) : List Call :=
  after.calls.drop before.calls.length

/-! ## Concrete backends and worlds used as instances -/

/-- A backend that replays a script: each command, whatever it is, settles as
the next entry says; once the script is used up every command resolves with
`null`. -/
def scripted : Backend (List (Except String JsVal)) := fun _ s =>
  match s with
  | [] => (Except.ok JsVal.null, [])
  | r :: rest => (r, rest)

/-- A main window with the menu closed, the iframe showing `about:blank`, an
empty console, and the scripted backend about to replay `script`. -/
def pageWith (script : List (Except String JsVal)) : World Page (List (Except String JsVal)) :=
  { dom :=
      { settingsBtn := ["icon-btn"], settingsMenu := ["menu"], menuOverlay := []
        vdoNinjaIframeSrc := JsVal.str "about:blank" }
    console := []
    calls := []
    backend := script }

/-- A backend without state that resolves every command with `null`. -/
def acceptAll : Backend Unit := fun _ s => (Except.ok JsVal.null, s)

/-- A backend without state that rejects every command with the given text. -/
def rejectAll (e : String) : Backend Unit := fun _ s => (Except.error e, s)

/-- An open dialog with the given field values and a stale error text. -/
def dialogWith (pushId audience : String) : World Dialog Unit :=
  { dom :=
      { push_id := pushId, audience := audience, audienceType := "password",
        togglePasswordBtnText := "👁️", errorMessage := "stale", closed := false }
    console := []
    calls := []
    backend := () }

/-! ## The backend side of the manual link, from the specification -/

/-- The logical secret of the specification (section 3). -/
structure RoomLink where
  pushId : String
  audience : String
  deriving DecidableEq, Repr

/-- Why a link changed (section 3, `ChangeEvent.causedBy`). -/
inductive ChangeCause where
  | Generated
  | ManualSet
  | Loaded
  deriving DecidableEq, Repr

/-- A broadcast on the notification channel; the link stands for its
canonical URL. -/
structure ChangeEvent where
  link : RoomLink
  causedBy : ChangeCause
  deriving DecidableEq, Repr

/-- The Link Manager's slot (`Empty` is `none`, `Present` is `some`) and the
events broadcast so far. -/
structure LinkManagerState where
  stored : Option RoomLink
  broadcasts : List ChangeEvent
  deriving DecidableEq, Repr

/-- The two ways the validation of a manual link fails. -/
inductive ValidationError where
  | pushIdRequired
  | invalidCharacters
  deriving DecidableEq, Repr

/-- Modelled from the spec: the Link Manager operation `setManualLink` of
section 4.4, whose Rust implementation (the command
`set_and_save_vdo_ninja_link`) is not among the front-end sources. It fails
when `pushId` is empty, fails when a character of either field is outside the
URL-safe set `urlSafe` (an empty audience passes), and otherwise stores the
link and broadcasts one `ManualSet` event. A failure changes nothing. -/
def setManualLink (urlSafe : Char → Bool) (pushId audience : String) (s : LinkManagerState) :
    Except ValidationError Unit × LinkManagerState :=
  if pushId = "" then
    (Except.error ValidationError.pushIdRequired, s)
  else if pushId.data.all urlSafe && audience.data.all urlSafe then
    (Except.ok (),
      { stored := some (RoomLink.mk pushId audience)
        broadcasts := s.broadcasts ++
          [ChangeEvent.mk (RoomLink.mk pushId audience) ChangeCause.ManualSet] })
  else
    (Except.error ValidationError.invalidCharacters, s)

/-- Modelled from the spec: the command surface `SetManualLink` of section 6,
which wraps `setManualLink` and turns a validation error into a message for
the user through `message`; the other commands are left to `others`. -/
def manualLinkBackend (urlSafe : Char → Bool) (message : ValidationError → String)
    (others : Backend LinkManagerState) : Backend LinkManagerState := fun cmd s =>
  match cmd with
  | Command.set_and_save_vdo_ninja_link pushId audience =>
    match setManualLink urlSafe pushId audience s with
    | (Except.ok _, s1) => (Except.ok JsVal.null, s1)
    | (Except.error err, s1) => (Except.error (message err), s1)
  | other => others other s

/-- Modelled from the spec: the URL-safe alphabet of section 4.1, the
unreserved characters (letters, digits, `-`, `.`, `_`, `~`). -/
def unreserved (c : Char) : Bool :=
  c.isAlphanum || c == '-' || c == '.' || c == '_' || c == '~'

/-- Messages for the two validation errors; the first is the text quoted in
section 6. -/
def validationMessage : ValidationError → String
  | .pushIdRequired => "Push ID (Room Name) is required."
  | .invalidCharacters => "Only URL-safe characters are allowed."

/-- A backend for the other commands that rejects them. -/
def noOtherCommands : Backend LinkManagerState := fun _ s => (Except.error "unsupported", s)

/-- An open dialog with the given field values, over an empty Link Manager. -/
def managedDialogWith (pushId audience : String) : World Dialog LinkManagerState :=
  { dom :=
      { push_id := pushId, audience := audience, audienceType := "password",
        togglePasswordBtnText := "👁️", errorMessage := "", closed := false }
    console := []
    calls := []
    backend := { stored := none, broadcasts := [] } }

/-! ## The manual-link dialog -/

/-- The save handler on an empty `push_id`, computed. -/
theorem saveBtnClick_empty {σ : Type} (B : Backend σ) (closeResult : Except String Unit)
    (w : World Dialog σ) (h : w.dom.push_id = "") :
    saveBtnClick B closeResult w =
      (Except.ok (), { w with dom := { w.dom with
        errorMessage := "Push ID (Room Name) is required." } }) := by
  simp [saveBtnClick, bind, Js.bind, readDom, setErrorMessage, modifyDom, JsVal.truthy, h]

/-- The save handler on a non-empty `push_id`, computed from how the backend
settles the command and how the window API settles the close. -/
theorem saveBtnClick_nonempty {σ : Type} (B : Backend σ) (closeResult : Except String Unit)
    (w : World Dialog σ) (h : w.dom.push_id ≠ "") :
    saveBtnClick B closeResult w =
      (Except.ok (),
        { dom := { w.dom with
            errorMessage :=
              (match (B w.dom.saveCommand w.backend).1 with
               | Except.ok _ =>
                 (match closeResult with
                  | Except.ok _ => ""
                  | Except.error c => c)
               | Except.error e => e)
            closed :=
              (match (B w.dom.saveCommand w.backend).1 with
               | Except.ok _ =>
                 (match closeResult with
                  | Except.ok _ => true
                  | Except.error _ => w.dom.closed)
               | Except.error _ => w.dom.closed) }
          console := w.console
          calls := w.calls ++ [Call.mk w.dom.saveCommand (B w.dom.saveCommand w.backend).1]
          backend := (B w.dom.saveCommand w.backend).2 }) := by
  simp only [saveBtnClick, bind, Js.bind, readDom, setErrorMessage, modifyDom, JsVal.truthy,
    Js.tryCatch, invoke, appWindowClose, Dialog.saveCommand]
  have h2 : (w.dom.push_id != "") = true := by simpa using h
  simp only [h2, if_true]
  cases hB : (B (Command.set_and_save_vdo_ninja_link w.dom.push_id w.dom.audience) w.backend).1 <;>
    cases closeResult <;>
    simp [hB, Js.tryCatch, Js.bind, invoke, modifyDom, appWindowClose]

/-- C1: clicking save with an empty pushId, whatever the audience field holds,
shows exactly "Push ID (Room Name) is required.", invokes no backend command
(the call record and the backend state are unchanged, so nothing can have been
stored or broadcast), and does not close the dialog window. -/
theorem save_empty_pushId_is_rejected {σ : Type} (B : Backend σ)
    (closeResult : Except String Unit) (w : World Dialog σ)
    (h : w.dom.push_id = "") :
    (saveBtnClick B closeResult w).2.dom.errorMessage = "Push ID (Room Name) is required." ∧
    (saveBtnClick B closeResult w).2.calls = w.calls ∧
    (saveBtnClick B closeResult w).2.backend = w.backend ∧
    (saveBtnClick B closeResult w).2.dom.closed = w.dom.closed := by
  rw [saveBtnClick_empty B closeResult w h]
  exact ⟨rfl, rfl, rfl, rfl⟩

/-- Instance of C1: empty pushId, audience "viewerKeyABC", a backend that would
accept anything. -/
theorem save_empty_pushId_is_rejected_witness :
    (dialogWith "" "viewerKeyABC").dom.push_id = "" ∧
    (saveBtnClick acceptAll (Except.ok ()) (dialogWith "" "viewerKeyABC")).2.dom.errorMessage
      = "Push ID (Room Name) is required." ∧
    (saveBtnClick acceptAll (Except.ok ()) (dialogWith "" "viewerKeyABC")).2.calls = [] ∧
    (saveBtnClick acceptAll (Except.ok ()) (dialogWith "" "viewerKeyABC")).2.dom.closed = false :=
  have h := save_empty_pushId_is_rejected acceptAll (Except.ok ())
    (dialogWith "" "viewerKeyABC") rfl
  ⟨rfl, h.1, h.2.1, h.2.2.2⟩

/-- C2: with a non-empty pushId and any audience (the empty one included),
clicking save invokes `set_and_save_vdo_ninja_link` exactly once, with the two
field values unchanged as arguments, and the message shown afterwards is not
set by the front-end validation branch: it is the rejection text when the
command rejected and, when the command resolved, empty or the rejection text
of the window close that followed. -/
theorem save_nonempty_pushId_invokes_once {σ : Type} (B : Backend σ)
    (closeResult : Except String Unit) (w : World Dialog σ)
    (h : w.dom.push_id ≠ "") :
    (saveBtnClick B closeResult w).2.calls =
      w.calls ++ [Call.mk (Command.set_and_save_vdo_ninja_link w.dom.push_id w.dom.audience)
        (B (Command.set_and_save_vdo_ninja_link w.dom.push_id w.dom.audience) w.backend).1] ∧
    (saveBtnClick B closeResult w).2.backend =
      (B (Command.set_and_save_vdo_ninja_link w.dom.push_id w.dom.audience) w.backend).2 ∧
    (saveBtnClick B closeResult w).2.dom.errorMessage =
      (match (B (Command.set_and_save_vdo_ninja_link w.dom.push_id w.dom.audience) w.backend).1 with
       | Except.ok _ =>
         (match closeResult with
          | Except.ok _ => ""
          | Except.error c => c)
       | Except.error e => e) := by
  rw [saveBtnClick_nonempty B closeResult w h]
  exact ⟨rfl, rfl, rfl⟩

/-- Instance of C2: pushId "room42" with an empty audience. -/
theorem save_nonempty_pushId_invokes_once_witness :
    (dialogWith "room42" "").dom.push_id ≠ "" ∧
    (saveBtnClick acceptAll (Except.ok ()) (dialogWith "room42" "")).2.calls =
      [Call.mk (Command.set_and_save_vdo_ninja_link "room42" "") (Except.ok JsVal.null)] ∧
    (saveBtnClick acceptAll (Except.ok ()) (dialogWith "room42" "")).2.dom.errorMessage = "" :=
  have h := save_nonempty_pushId_invokes_once acceptAll (Except.ok ())
    (dialogWith "room42" "") (by decide)
  ⟨by decide, h.1, h.2.2⟩

/-- C3, the code at the failing input: with pushId "room42" the backend
command resolves, but the window close that follows rejects with
"window.close not allowed". The close is awaited inside the `try`, so its
rejection reaches the `catch` written for the backend's validation errors:
the dialog stays open and that text is shown although the command succeeded,
where the claim has the window closed and the message empty. -/
theorem save_close_rejection_is_shown :
    (dialogWith "room42" "k").dom.push_id ≠ "" ∧
    (saveBtnClick acceptAll (Except.error "window.close not allowed")
        (dialogWith "room42" "k")).2.calls =
      [Call.mk (Command.set_and_save_vdo_ninja_link "room42" "k") (Except.ok JsVal.null)] ∧
    (saveBtnClick acceptAll (Except.error "window.close not allowed")
        (dialogWith "room42" "k")).2.dom.closed = false ∧
    (saveBtnClick acceptAll (Except.error "window.close not allowed")
        (dialogWith "room42" "k")).2.dom.errorMessage = "window.close not allowed" := by
  rw [saveBtnClick_nonempty acceptAll (Except.error "window.close not allowed")
    (dialogWith "room42" "k") (by decide)]
  exact ⟨by decide, rfl, rfl, rfl⟩

/-- The save handler in full, for a click in an open dialog: the window is
closed afterwards exactly when pushId is non-empty, the backend command
resolved and the window close itself resolved; when the command rejects with
`e` the message shown is `e` itself and the dialog stays open; when the
command and the close both resolve the message shown is empty; when the
command resolves and the close rejects with `c` the message shown is `c` and
the dialog stays open. -/
theorem save_closes_iff_command_and_close_succeed {σ : Type} (B : Backend σ)
    (closeResult : Except String Unit) (w : World Dialog σ)
    (hopen : w.dom.closed = false) :
    ((saveBtnClick B closeResult w).2.dom.closed = true ↔
      (w.dom.push_id ≠ "" ∧
        (∃ v, (B (Command.set_and_save_vdo_ninja_link w.dom.push_id w.dom.audience)
          w.backend).1 = Except.ok v) ∧
        closeResult = Except.ok ())) ∧
    (∀ e, w.dom.push_id ≠ "" →
      (B (Command.set_and_save_vdo_ninja_link w.dom.push_id w.dom.audience) w.backend).1
        = Except.error e →
      (saveBtnClick B closeResult w).2.dom.errorMessage = e ∧
      (saveBtnClick B closeResult w).2.dom.closed = false) ∧
    (∀ v, w.dom.push_id ≠ "" →
      (B (Command.set_and_save_vdo_ninja_link w.dom.push_id w.dom.audience) w.backend).1
        = Except.ok v →
      closeResult = Except.ok () →
      (saveBtnClick B closeResult w).2.dom.errorMessage = "") ∧
    (∀ v c, w.dom.push_id ≠ "" →
      (B (Command.set_and_save_vdo_ninja_link w.dom.push_id w.dom.audience) w.backend).1
        = Except.ok v →
      closeResult = Except.error c →
      (saveBtnClick B closeResult w).2.dom.errorMessage = c ∧
      (saveBtnClick B closeResult w).2.dom.closed = false) := by
  by_cases h : w.dom.push_id = ""
  · rw [saveBtnClick_empty B closeResult w h]
    simp [h, hopen]
  · rw [saveBtnClick_nonempty B closeResult w h]
    simp only [Dialog.saveCommand]
    cases hB : (B (Command.set_and_save_vdo_ninja_link w.dom.push_id w.dom.audience)
        w.backend).1 <;> cases closeResult <;> simp [h, hopen]

/-! ## `loadUrlIntoIframe`, case by case -/

/-- The first load rejects: the error is logged and nothing else changes. -/
theorem loadUrlIntoIframe_first_load_rejects {σ : Type} (B : Backend σ) (w : World Page σ)
    (e : String) (s1 : σ)
    (h1 : B Command.load_decrypted_url_from_config_command w.backend = (Except.error e, s1)) :
    loadUrlIntoIframe B w =
      (Except.ok (),
        { dom := w.dom
          console := w.console ++ [LogEntry.mk LogLevel.error "Error loading URL:" (JsVal.str e)]
          calls := w.calls ++ [Call.mk Command.load_decrypted_url_from_config_command
            (Except.error e)]
          backend := s1 }) := by
  simp [loadUrlIntoIframe, Js.tryCatch, bind, Js.bind, invoke, consoleError, h1]

/-- The first load resolves with a truthy value. -/
theorem loadUrlIntoIframe_first_load_truthy {σ : Type} (B : Backend σ) (w : World Page σ)
    (u : JsVal) (s1 : σ)
    (h1 : B Command.load_decrypted_url_from_config_command w.backend = (Except.ok u, s1))
    (hu : u.truthy = true) :
    loadUrlIntoIframe B w =
      (Except.ok (),
        { dom := { w.dom with vdoNinjaIframeSrc := u }
          console := w.console ++ [LogEntry.mk LogLevel.log "Loaded URL into iframe:" u]
          calls := w.calls ++ [Call.mk Command.load_decrypted_url_from_config_command
            (Except.ok u)]
          backend := s1 }) := by
  simp [loadUrlIntoIframe, Js.tryCatch, bind, Js.bind, invoke, consoleLog, setIframeSrc,
    modifyDom, h1, hu]

/-- The first load resolves with a falsy value and the generate rejects. -/
theorem loadUrlIntoIframe_generate_rejects {σ : Type} (B : Backend σ) (w : World Page σ)
    (v : JsVal) (e : String) (s1 s2 : σ)
    (h1 : B Command.load_decrypted_url_from_config_command w.backend = (Except.ok v, s1))
    (hv : v.truthy = false)
    (h2 : B Command.generate_new_random_link s1 = (Except.error e, s2)) :
    loadUrlIntoIframe B w =
      (Except.ok (),
        { dom := w.dom
          console := w.console ++ [LogEntry.mk LogLevel.error "Error loading URL:" (JsVal.str e)]
          calls := w.calls ++
            [Call.mk Command.load_decrypted_url_from_config_command (Except.ok v),
             Call.mk Command.generate_new_random_link (Except.error e)]
          backend := s2 }) := by
  simp [loadUrlIntoIframe, Js.tryCatch, bind, Js.bind, invoke, consoleError, h1, hv, h2]

/-- The first load resolves with a falsy value, the generate resolves and the
second load rejects. -/
theorem loadUrlIntoIframe_second_load_rejects {σ : Type} (B : Backend σ) (w : World Page σ)
    (v g : JsVal) (e : String) (s1 s2 s3 : σ)
    (h1 : B Command.load_decrypted_url_from_config_command w.backend = (Except.ok v, s1))
    (hv : v.truthy = false)
    (h2 : B Command.generate_new_random_link s1 = (Except.ok g, s2))
    (h3 : B Command.load_decrypted_url_from_config_command s2 = (Except.error e, s3)) :
    loadUrlIntoIframe B w =
      (Except.ok (),
        { dom := w.dom
          console := w.console ++ [LogEntry.mk LogLevel.error "Error loading URL:" (JsVal.str e)]
          calls := w.calls ++
            [Call.mk Command.load_decrypted_url_from_config_command (Except.ok v),
             Call.mk Command.generate_new_random_link (Except.ok g),
             Call.mk Command.load_decrypted_url_from_config_command (Except.error e)]
          backend := s3 }) := by
  simp [loadUrlIntoIframe, Js.tryCatch, bind, Js.bind, invoke, consoleError, h1, hv, h2, h3]

/-- The first load resolves with a falsy value, the generate and the second
load resolve. -/
theorem loadUrlIntoIframe_generated {σ : Type} (B : Backend σ) (w : World Page σ)
    (v g v2 : JsVal) (s1 s2 s3 : σ)
    (h1 : B Command.load_decrypted_url_from_config_command w.backend = (Except.ok v, s1))
    (hv : v.truthy = false)
    (h2 : B Command.generate_new_random_link s1 = (Except.ok g, s2))
    (h3 : B Command.load_decrypted_url_from_config_command s2 = (Except.ok v2, s3)) :
    loadUrlIntoIframe B w =
      (Except.ok (),
        { dom := { w.dom with vdoNinjaIframeSrc := v2 }
          console := w.console ++ [LogEntry.mk LogLevel.log "Generated and loaded new URL:" v2]
          calls := w.calls ++
            [Call.mk Command.load_decrypted_url_from_config_command (Except.ok v),
             Call.mk Command.generate_new_random_link (Except.ok g),
             Call.mk Command.load_decrypted_url_from_config_command (Except.ok v2)]
          backend := s3 }) := by
  simp [loadUrlIntoIframe, Js.tryCatch, bind, Js.bind, invoke, consoleLog, setIframeSrc,
    modifyDom, h1, hv, h2, h3]

/-- The calls recorded since `w`, when the later world has `l` appended. -/
theorem callsSince_append {D σ : Type} (w v : World D σ) (l : List Call)
    (h : v.calls = w.calls ++ l) : callsSince w v = l := by
  simp [callsSince, h]

/-! ## Get-or-create at startup -/

/-- C4: get-or-create in `loadUrlIntoIframe` when no backend call fails. If the
first load resolves with a non-empty URL `u`, the iframe source becomes `u`
and the only command invoked is that load (no generate). If it resolves with
nothing or an empty value, the commands invoked are load, generate once, load
again, and the iframe source becomes what the second load resolved with. -/
theorem loadUrlIntoIframe_get_or_create {σ : Type} (B : Backend σ) (w : World Page σ) :
    (∀ (u : String) (s1 : σ), u ≠ "" →
      B Command.load_decrypted_url_from_config_command w.backend = (Except.ok (JsVal.str u), s1) →
      (loadUrlIntoIframe B w).2.dom.vdoNinjaIframeSrc = JsVal.str u ∧
      (loadUrlIntoIframe B w).2.calls =
        w.calls ++ [Call.mk Command.load_decrypted_url_from_config_command
          (Except.ok (JsVal.str u))]) ∧
    (∀ (v g v2 : JsVal) (s1 s2 s3 : σ),
      (v = JsVal.undefined ∨ v = JsVal.null ∨ v = JsVal.str "") →
      B Command.load_decrypted_url_from_config_command w.backend = (Except.ok v, s1) →
      B Command.generate_new_random_link s1 = (Except.ok g, s2) →
      B Command.load_decrypted_url_from_config_command s2 = (Except.ok v2, s3) →
      (loadUrlIntoIframe B w).2.calls =
        w.calls ++
          [Call.mk Command.load_decrypted_url_from_config_command (Except.ok v),
           Call.mk Command.generate_new_random_link (Except.ok g),
           Call.mk Command.load_decrypted_url_from_config_command (Except.ok v2)] ∧
      (loadUrlIntoIframe B w).2.dom.vdoNinjaIframeSrc = v2) := by
  refine ⟨?_, ?_⟩
  · intro u s1 hu h1
    have ht : (JsVal.str u).truthy = true := by simpa [JsVal.truthy] using hu
    rw [loadUrlIntoIframe_first_load_truthy B w (JsVal.str u) s1 h1 ht]
    exact ⟨rfl, rfl⟩
  · intro v g v2 s1 s2 s3 hv h1 h2 h3
    have hf : v.truthy = false := by
      rcases hv with hv | hv | hv <;> subst hv <;> rfl
    rw [loadUrlIntoIframe_generated B w v g v2 s1 s2 s3 h1 hf h2 h3]
    exact ⟨rfl, rfl⟩

/-- Instance of C4: nothing stored, so load, generate, load; the iframe ends
on the URL the second load returns. -/
theorem loadUrlIntoIframe_get_or_create_witness :
    (loadUrlIntoIframe scripted
        (pageWith [Except.ok JsVal.null, Except.ok JsVal.null,
          Except.ok (JsVal.str "https://vdo.ninja/?push=abc")])).2.calls =
      [Call.mk Command.load_decrypted_url_from_config_command (Except.ok JsVal.null),
       Call.mk Command.generate_new_random_link (Except.ok JsVal.null),
       Call.mk Command.load_decrypted_url_from_config_command
         (Except.ok (JsVal.str "https://vdo.ninja/?push=abc"))] ∧
    (loadUrlIntoIframe scripted
        (pageWith [Except.ok JsVal.null, Except.ok JsVal.null,
          Except.ok (JsVal.str "https://vdo.ninja/?push=abc")])).2.dom.vdoNinjaIframeSrc =
      JsVal.str "https://vdo.ninja/?push=abc" :=
  (loadUrlIntoIframe_get_or_create scripted
      (pageWith [Except.ok JsVal.null, Except.ok JsVal.null,
        Except.ok (JsVal.str "https://vdo.ninja/?push=abc")])).2
    JsVal.null JsVal.null (JsVal.str "https://vdo.ninja/?push=abc")
    [Except.ok JsVal.null, Except.ok (JsVal.str "https://vdo.ninja/?push=abc")]
    [Except.ok (JsVal.str "https://vdo.ninja/?push=abc")] []
    (Or.inr (Or.inl rfl)) rfl rfl rfl

/-- C9: if some backend command invoked during a run of `loadUrlIntoIframe`
rejects (the first load, the generate or the second load), the run leaves the
iframe source as it was and returns normally to its caller. -/
theorem loadUrlIntoIframe_failure_keeps_iframe {σ : Type} (B : Backend σ) (w : World Page σ)
    (hfail : ∃ c ∈ callsSince w (loadUrlIntoIframe B w).2, ∃ e, c.result = Except.error e) :
    (loadUrlIntoIframe B w).2.dom.vdoNinjaIframeSrc = w.dom.vdoNinjaIframeSrc ∧
    (loadUrlIntoIframe B w).1 = Except.ok () := by
  rcases h1 : B Command.load_decrypted_url_from_config_command w.backend with ⟨r1, s1⟩
  cases r1 with
  | error e => rw [loadUrlIntoIframe_first_load_rejects B w e s1 h1]; exact ⟨rfl, rfl⟩
  | ok v =>
    cases hv : v.truthy with
    | true =>
      rw [loadUrlIntoIframe_first_load_truthy B w v s1 h1 hv] at hfail
      rw [callsSince_append w _ _ rfl] at hfail
      simp at hfail
    | false =>
      rcases h2 : B Command.generate_new_random_link s1 with ⟨r2, s2⟩
      cases r2 with
      | error e => rw [loadUrlIntoIframe_generate_rejects B w v e s1 s2 h1 hv h2]; exact ⟨rfl, rfl⟩
      | ok g =>
        rcases h3 : B Command.load_decrypted_url_from_config_command s2 with ⟨r3, s3⟩
        cases r3 with
        | error e =>
          rw [loadUrlIntoIframe_second_load_rejects B w v g e s1 s2 s3 h1 hv h2 h3]
          exact ⟨rfl, rfl⟩
        | ok v2 =>
          rw [loadUrlIntoIframe_generated B w v g v2 s1 s2 s3 h1 hv h2 h3] at hfail
          rw [callsSince_append w _ _ rfl] at hfail
          simp at hfail

/-- Instance of C9: the second load rejects after a successful generate. -/
theorem loadUrlIntoIframe_failure_keeps_iframe_witness :
    (loadUrlIntoIframe scripted
        (pageWith [Except.ok JsVal.null, Except.ok JsVal.null,
          Except.error "DecryptionFailed"])).2.dom.vdoNinjaIframeSrc = JsVal.str "about:blank" ∧
    (loadUrlIntoIframe scripted
        (pageWith [Except.ok JsVal.null, Except.ok JsVal.null,
          Except.error "DecryptionFailed"])).1 = Except.ok () :=
  loadUrlIntoIframe_failure_keeps_iframe scripted
    (pageWith [Except.ok JsVal.null, Except.ok JsVal.null, Except.error "DecryptionFailed"])
    ⟨Call.mk Command.load_decrypted_url_from_config_command (Except.error "DecryptionFailed"),
      by simp [callsSince, loadUrlIntoIframe, Js.tryCatch, bind, Js.bind, invoke, consoleError,
        scripted, pageWith, JsVal.truthy],
      "DecryptionFailed", rfl⟩

/-! ## The `url-updated` listener -/

/-- The listener, computed. -/
theorem onUrlUpdated_eq {σ : Type} (payload : JsVal) (w : World Page σ) :
    onUrlUpdated payload w =
      (Except.ok (),
        { dom := { w.dom with vdoNinjaIframeSrc := payload }
          console := w.console ++
            [LogEntry.mk LogLevel.log "URL updated event received:" payload]
          calls := w.calls
          backend := w.backend }) := by
  simp [onUrlUpdated, bind, Js.bind, consoleLog, setIframeSrc, modifyDom]

/-- Handling one more event after a sequence of events. -/
theorem onUrlUpdatedAll_concat {σ : Type} (ps : List JsVal) (payload : JsVal)
    (w : World Page σ) :
    onUrlUpdatedAll (ps ++ [payload]) w = (onUrlUpdated payload (onUrlUpdatedAll ps w)).2 := by
  simp [onUrlUpdatedAll, List.foldl_append]

/-- C5: handling a "url-updated" event sets the iframe source to exactly the
payload and invokes no backend command (call record and backend state are
unchanged). Hence handling the same event twice leaves the same state (DOM,
call record and backend state) as handling it once, and after any non-empty
sequence of events the iframe source is the payload of the last one. The
console is output rather than state: it gains one line per handled event. -/
theorem onUrlUpdated_sets_iframe_src {σ : Type} (payload : JsVal) (w : World Page σ) :
    ((onUrlUpdated payload w).2.dom.vdoNinjaIframeSrc = payload ∧
      (onUrlUpdated payload w).2.calls = w.calls ∧
      (onUrlUpdated payload w).2.backend = w.backend) ∧
    ((onUrlUpdated payload (onUrlUpdated payload w).2).2.dom = (onUrlUpdated payload w).2.dom ∧
      (onUrlUpdated payload (onUrlUpdated payload w).2).2.calls
        = (onUrlUpdated payload w).2.calls ∧
      (onUrlUpdated payload (onUrlUpdated payload w).2).2.backend
        = (onUrlUpdated payload w).2.backend) ∧
    (∀ (ps : List JsVal) (h : ps ≠ []),
      (onUrlUpdatedAll ps w).dom.vdoNinjaIframeSrc = ps.getLast h) := by
  refine ⟨?_, ?_, ?_⟩
  · rw [onUrlUpdated_eq]; exact ⟨rfl, rfl, rfl⟩
  · rw [onUrlUpdated_eq, onUrlUpdated_eq]; exact ⟨rfl, rfl, rfl⟩
  · intro ps h
    induction ps using List.reverseRecOn with
    | nil => exact absurd rfl h
    | append_singleton init last _ =>
      rw [onUrlUpdatedAll_concat, onUrlUpdated_eq]
      simp

/-- Instance of C5: three events, the last one wins. -/
theorem onUrlUpdated_sets_iframe_src_witness :
    (onUrlUpdatedAll [JsVal.str "https://vdo.ninja/?push=a", JsVal.str "https://vdo.ninja/?push=b",
        JsVal.str "https://vdo.ninja/?push=c"] (pageWith [])).dom.vdoNinjaIframeSrc
      = JsVal.str "https://vdo.ninja/?push=c" :=
  (onUrlUpdated_sets_iframe_src JsVal.null (pageWith [])).2.2
    [JsVal.str "https://vdo.ninja/?push=a", JsVal.str "https://vdo.ninja/?push=b",
      JsVal.str "https://vdo.ninja/?push=c"] (by decide)

/-! ## The settings menu -/

/-- Removing a token that is absent changes nothing. -/
theorem ClassList.remove_of_not_mem (cl : ClassList) (t : String) (h : t ∉ cl) :
    cl.remove t = cl := by
  unfold ClassList.remove
  rw [List.filter_eq_self]
  intro a ha
  have : a ≠ t := fun hat => h (hat ▸ ha)
  simpa using this

/-- Adding an absent token and removing it again gives the list back. -/
theorem ClassList.remove_add_of_not_mem (cl : ClassList) (t : String) (h : t ∉ cl) :
    (cl.add t).remove t = cl := by
  have h1 : cl.add t = cl ++ [t] := by simp [ClassList.add, h]
  rw [h1]
  unfold ClassList.remove
  rw [List.filter_append]
  have h2 := ClassList.remove_of_not_mem cl t h
  unfold ClassList.remove at h2
  rw [h2]
  simp

/-- After `add`, the token is present. -/
theorem ClassList.contains_add (cl : ClassList) (t : String) :
    (cl.add t).contains t = true := by
  by_cases h : t ∈ cl <;> simp [ClassList.add, ClassList.contains, h]

/-- Adding a present token changes nothing. -/
theorem ClassList.add_add (cl : ClassList) (t : String) :
    (cl.add t).add t = cl.add t := by
  by_cases h : t ∈ cl <;> simp [ClassList.add, h]

/-- From a page without the marker classes, a menu history ends either on that
page or on that page opened. -/
theorem runMenu_closed_or_open (p0 : Page) (h1 : p0.menuShow = false)
    (h2 : p0.overlayShow = false) (h3 : p0.btnActive = false) (ops : List MenuOp) :
    (runMenu ops p0 = p0 ∨ runMenu ops p0 = openMenu p0) ∧
    (runMenu ops (openMenu p0) = p0 ∨ runMenu ops (openMenu p0) = openMenu p0) := by
  have n1 : "show" ∉ p0.settingsMenu := by simpa [Page.menuShow, ClassList.contains] using h1
  have n2 : "show" ∉ p0.menuOverlay := by simpa [Page.overlayShow, ClassList.contains] using h2
  have n3 : "active" ∉ p0.settingsBtn := by simpa [Page.btnActive, ClassList.contains] using h3
  have hcc : closeMenu p0 = p0 := by
    simp [closeMenu, ClassList.remove_of_not_mem, n1, n2, n3]
  have hco : closeMenu (openMenu p0) = p0 := by
    simp [closeMenu, openMenu, ClassList.remove_add_of_not_mem, n1, n2, n3]
  have hoo : openMenu (openMenu p0) = openMenu p0 := by
    simp [openMenu, ClassList.add_add]
  have htc : toggleMenu p0 = openMenu p0 := by
    simp [toggleMenu, ClassList.contains, n1]
  have hto : toggleMenu (openMenu p0) = p0 := by
    have : (openMenu p0).settingsMenu.contains "show" = true := by
      simp [openMenu, ClassList.contains_add]
    simp [toggleMenu, this, hco]
  induction ops with
  | nil => exact ⟨Or.inl rfl, Or.inr rfl⟩
  | cons op rest ih =>
    cases op
    · exact ⟨by simpa [runMenu, MenuOp.apply] using ih.2,
        by simpa [runMenu, MenuOp.apply, hoo] using ih.2⟩
    · exact ⟨by simpa [runMenu, MenuOp.apply, hcc] using ih.1,
        by simpa [runMenu, MenuOp.apply, hco] using ih.1⟩
    · exact ⟨by simpa [runMenu, MenuOp.apply, htc] using ih.2,
        by simpa [runMenu, MenuOp.apply, hto] using ih.1⟩

/-- C10: from a page where the menu, the overlay and the settings button all
lack their marker class, after any sequence of `openMenu`, `closeMenu` and
`toggleMenu` the three flags are equal; in that state `toggleMenu` flips all
three, and `toggleMenu` applied twice gives the state back. -/
theorem menu_flags_stay_equal (p0 : Page) (h1 : p0.menuShow = false)
    (h2 : p0.overlayShow = false) (h3 : p0.btnActive = false) (ops : List MenuOp) :
    ((runMenu ops p0).menuShow = (runMenu ops p0).overlayShow ∧
      (runMenu ops p0).overlayShow = (runMenu ops p0).btnActive) ∧
    ((toggleMenu (runMenu ops p0)).menuShow = !(runMenu ops p0).menuShow ∧
      (toggleMenu (runMenu ops p0)).overlayShow = !(runMenu ops p0).overlayShow ∧
      (toggleMenu (runMenu ops p0)).btnActive = !(runMenu ops p0).btnActive) ∧
    toggleMenu (toggleMenu (runMenu ops p0)) = runMenu ops p0 := by
  have n1 : "show" ∉ p0.settingsMenu := by simpa [Page.menuShow, ClassList.contains] using h1
  have n2 : "show" ∉ p0.menuOverlay := by simpa [Page.overlayShow, ClassList.contains] using h2
  have n3 : "active" ∉ p0.settingsBtn := by simpa [Page.btnActive, ClassList.contains] using h3
  have o1 : (openMenu p0).menuShow = true := by
    simp [Page.menuShow, openMenu, ClassList.contains_add]
  have o2 : (openMenu p0).overlayShow = true := by
    simp [Page.overlayShow, openMenu, ClassList.contains_add]
  have o3 : (openMenu p0).btnActive = true := by
    simp [Page.btnActive, openMenu, ClassList.contains_add]
  have htc : toggleMenu p0 = openMenu p0 := by
    simp [toggleMenu, ClassList.contains, n1]
  have hto : toggleMenu (openMenu p0) = p0 := by
    have hs : (openMenu p0).settingsMenu.contains "show" = true := o1
    have hco : closeMenu (openMenu p0) = p0 := by
      simp [closeMenu, openMenu, ClassList.remove_add_of_not_mem, n1, n2, n3]
    simp [toggleMenu, hs, hco]
  rcases (runMenu_closed_or_open p0 h1 h2 h3 ops).1 with h | h
  · rw [h, htc, hto]
    simp [h1, h2, h3, o1, o2, o3]
  · rw [h, hto, htc]
    simp [h1, h2, h3, o1, o2, o3]

/-- Instance of C10: the history toggle, open, toggle, close, toggle from the
initial page leaves the menu open with all three flags set. -/
theorem menu_flags_stay_equal_witness :
    (runMenu [MenuOp.toggleMenu, MenuOp.openMenu, MenuOp.toggleMenu, MenuOp.closeMenu,
        MenuOp.toggleMenu] (pageWith []).dom).menuShow = true ∧
    ((runMenu [MenuOp.toggleMenu, MenuOp.openMenu, MenuOp.toggleMenu, MenuOp.closeMenu,
        MenuOp.toggleMenu] (pageWith []).dom).menuShow =
      (runMenu [MenuOp.toggleMenu, MenuOp.openMenu, MenuOp.toggleMenu, MenuOp.closeMenu,
        MenuOp.toggleMenu] (pageWith []).dom).overlayShow ∧
     (runMenu [MenuOp.toggleMenu, MenuOp.openMenu, MenuOp.toggleMenu, MenuOp.closeMenu,
        MenuOp.toggleMenu] (pageWith []).dom).overlayShow =
      (runMenu [MenuOp.toggleMenu, MenuOp.openMenu, MenuOp.toggleMenu, MenuOp.closeMenu,
        MenuOp.toggleMenu] (pageWith []).dom).btnActive) :=
  ⟨by decide,
    (menu_flags_stay_equal (pageWith []).dom (by decide) (by decide) (by decide)
      [MenuOp.toggleMenu, MenuOp.openMenu, MenuOp.toggleMenu, MenuOp.closeMenu,
        MenuOp.toggleMenu]).1⟩

/-! ## What becomes of a backend failure -/

/-- The generate button handler, computed: the menu is closed, the command is
invoked, and a rejection is thrown on to the caller. -/
theorem generateLinkBtnClick_eq {σ : Type} (B : Backend σ) (w : World Page σ) :
    generateLinkBtnClick B w =
      ((match (B Command.generate_new_random_link w.backend).1 with
        | Except.ok _ => Except.ok ()
        | Except.error e => Except.error e),
        { dom := closeMenu w.dom
          console := w.console
          calls := w.calls ++ [Call.mk Command.generate_new_random_link
            (B Command.generate_new_random_link w.backend).1]
          backend := (B Command.generate_new_random_link w.backend).2 }) := by
  simp only [generateLinkBtnClick, bind, Js.bind, modifyDom, invoke, pure, Js.pure]
  cases hB : (B Command.generate_new_random_link w.backend).1 <;> simp

/-- A run of `loadUrlIntoIframe` in which some command rejects with `e`
returns normally, leaves the DOM alone and appends one `console.error` line. -/
theorem loadUrlIntoIframe_failure_logged {σ : Type} (B : Backend σ) (w : World Page σ)
    (e : String)
    (hfail : ∃ c ∈ callsSince w (loadUrlIntoIframe B w).2, c.result = Except.error e) :
    (loadUrlIntoIframe B w).1 = Except.ok () ∧
    (loadUrlIntoIframe B w).2.dom = w.dom ∧
    (loadUrlIntoIframe B w).2.console =
      w.console ++ [LogEntry.mk LogLevel.error "Error loading URL:" (JsVal.str e)] := by
  rcases h1 : B Command.load_decrypted_url_from_config_command w.backend with ⟨r1, s1⟩
  cases r1 with
  | error e1 =>
    rw [loadUrlIntoIframe_first_load_rejects B w e1 s1 h1] at hfail ⊢
    rw [callsSince_append w _ _ rfl] at hfail
    simp at hfail
    subst hfail
    exact ⟨rfl, rfl, rfl⟩
  | ok v =>
    cases hv : v.truthy with
    | true =>
      rw [loadUrlIntoIframe_first_load_truthy B w v s1 h1 hv] at hfail
      rw [callsSince_append w _ _ rfl] at hfail
      simp at hfail
    | false =>
      rcases h2 : B Command.generate_new_random_link s1 with ⟨r2, s2⟩
      cases r2 with
      | error e2 =>
        rw [loadUrlIntoIframe_generate_rejects B w v e2 s1 s2 h1 hv h2] at hfail ⊢
        rw [callsSince_append w _ _ rfl] at hfail
        simp at hfail
        subst hfail
        exact ⟨rfl, rfl, rfl⟩
      | ok g =>
        rcases h3 : B Command.load_decrypted_url_from_config_command s2 with ⟨r3, s3⟩
        cases r3 with
        | error e3 =>
          rw [loadUrlIntoIframe_second_load_rejects B w v g e3 s1 s2 s3 h1 hv h2 h3] at hfail ⊢
          rw [callsSince_append w _ _ rfl] at hfail
          simp at hfail
          subst hfail
          exact ⟨rfl, rfl, rfl⟩
        | ok v2 =>
          rw [loadUrlIntoIframe_generated B w v g v2 s1 s2 s3 h1 hv h2 h3] at hfail
          rw [callsSince_append w _ _ rfl] at hfail
          simp at hfail

/-- C6, as stated, fails: when the first load rejects with "DecryptionFailed",
`loadUrlIntoIframe` returns normally (no error reaches the caller), the DOM is
untouched (nothing is shown to the user), and the only trace of the failure is
one `console.error` line. -/
theorem load_failure_is_log_only :
    (loadUrlIntoIframe scripted (pageWith [Except.error "DecryptionFailed"])).2.calls =
      [Call.mk Command.load_decrypted_url_from_config_command
        (Except.error "DecryptionFailed")] ∧
    (loadUrlIntoIframe scripted (pageWith [Except.error "DecryptionFailed"])).1 = Except.ok () ∧
    (loadUrlIntoIframe scripted (pageWith [Except.error "DecryptionFailed"])).2.dom =
      (pageWith [Except.error "DecryptionFailed"]).dom ∧
    (loadUrlIntoIframe scripted (pageWith [Except.error "DecryptionFailed"])).2.console =
      [LogEntry.mk LogLevel.error "Error loading URL:" (JsVal.str "DecryptionFailed")] := by
  rw [loadUrlIntoIframe_first_load_rejects scripted (pageWith [Except.error "DecryptionFailed"])
    "DecryptionFailed" [] rfl]
  exact ⟨rfl, rfl, rfl, rfl⟩

/-- C6, amended: a backend failure is handled in one of three ways, by place.
In `loadUrlIntoIframe` a rejection `e` of any of its commands is caught: the
function returns normally, the DOM is unchanged and one line
`console.error("Error loading URL:", e)` is written. In the generate button
handler a rejection `e` of `generate_new_random_link` is thrown on to the
caller. In the dialog a rejection `e` of `set_and_save_vdo_ninja_link` is
shown to the user as the error message. -/
theorem backend_failure_handling {σ : Type} (B : Backend σ) :
    (∀ (w : World Page σ) (e : String),
      (∃ c ∈ callsSince w (loadUrlIntoIframe B w).2, c.result = Except.error e) →
      (loadUrlIntoIframe B w).1 = Except.ok () ∧
      (loadUrlIntoIframe B w).2.dom = w.dom ∧
      (loadUrlIntoIframe B w).2.console =
        w.console ++ [LogEntry.mk LogLevel.error "Error loading URL:" (JsVal.str e)]) ∧
    (∀ (w : World Page σ) (e : String),
      (B Command.generate_new_random_link w.backend).1 = Except.error e →
      (generateLinkBtnClick B w).1 = Except.error e) ∧
    (∀ (closeResult : Except String Unit) (w : World Dialog σ) (e : String),
      w.dom.push_id ≠ "" →
      (B (Command.set_and_save_vdo_ninja_link w.dom.push_id w.dom.audience) w.backend).1
        = Except.error e →
      (saveBtnClick B closeResult w).1 = Except.ok () ∧
      (saveBtnClick B closeResult w).2.dom.errorMessage = e) := by
  refine ⟨fun w e h => loadUrlIntoIframe_failure_logged B w e h, ?_, ?_⟩
  · intro w e h
    rw [generateLinkBtnClick_eq, h]
  · intro closeResult w e hp h
    rw [saveBtnClick_nonempty B closeResult w hp]
    simp [Dialog.saveCommand, h]

/-- Instance of the amended C6: a rejected generate in the button handler is
thrown on to the caller. -/
theorem backend_failure_handling_witness :
    (generateLinkBtnClick scripted (pageWith [Except.error "EntropyUnavailable"])).1
      = Except.error "EntropyUnavailable" :=
  (backend_failure_handling scripted).2.1 (pageWith [Except.error "EntropyUnavailable"])
    "EntropyUnavailable" rfl

/-! ## The URL and the console -/

/-- C7, as stated, fails: the URL the load returns is written to the console
by `loadUrlIntoIframe`, the payload is written by the listener, and two runs
that differ only in the URL write different console lines. -/
theorem url_is_written_to_console :
    (loadUrlIntoIframe scripted
        (pageWith [Except.ok (JsVal.str "https://vdo.ninja/?push=abc")])).2.console =
      [LogEntry.mk LogLevel.log "Loaded URL into iframe:"
        (JsVal.str "https://vdo.ninja/?push=abc")] ∧
    (onUrlUpdated (JsVal.str "https://vdo.ninja/?push=abc") (pageWith [])).2.console =
      [LogEntry.mk LogLevel.log "URL updated event received:"
        (JsVal.str "https://vdo.ninja/?push=abc")] ∧
    (loadUrlIntoIframe scripted
        (pageWith [Except.ok (JsVal.str "https://vdo.ninja/?push=abc")])).2.console ≠
      (loadUrlIntoIframe scripted
        (pageWith [Except.ok (JsVal.str "https://vdo.ninja/?push=xyz")])).2.console := by
  rw [loadUrlIntoIframe_first_load_truthy scripted
      (pageWith [Except.ok (JsVal.str "https://vdo.ninja/?push=abc")])
      (JsVal.str "https://vdo.ninja/?push=abc") [] rfl (by decide),
    loadUrlIntoIframe_first_load_truthy scripted
      (pageWith [Except.ok (JsVal.str "https://vdo.ninja/?push=xyz")])
      (JsVal.str "https://vdo.ninja/?push=xyz") [] rfl (by decide),
    onUrlUpdated_eq]
  exact ⟨rfl, rfl, by decide⟩

/-- C7, amended: the URL is written to the console in plaintext. A run of
`loadUrlIntoIframe` in which no backend call fails appends exactly one
`console.log` line, whose argument is the very value the run assigns to the
iframe source; a run of the "url-updated" listener appends exactly one
`console.log` line, whose argument is the event payload. -/
theorem url_logged_with_iframe_value {σ : Type} (B : Backend σ) (w : World Page σ) :
    ((∀ c ∈ callsSince w (loadUrlIntoIframe B w).2, ∃ v, c.result = Except.ok v) →
      ∃ label, (label = "Loaded URL into iframe:" ∨ label = "Generated and loaded new URL:") ∧
        (loadUrlIntoIframe B w).2.console =
          w.console ++ [LogEntry.mk LogLevel.log label
            (loadUrlIntoIframe B w).2.dom.vdoNinjaIframeSrc]) ∧
    (∀ payload : JsVal,
      (onUrlUpdated payload w).2.console =
        w.console ++ [LogEntry.mk LogLevel.log "URL updated event received:" payload] ∧
      (onUrlUpdated payload w).2.dom.vdoNinjaIframeSrc = payload) := by
  refine ⟨?_, fun payload => by rw [onUrlUpdated_eq]; exact ⟨rfl, rfl⟩⟩
  intro hok
  rcases h1 : B Command.load_decrypted_url_from_config_command w.backend with ⟨r1, s1⟩
  cases r1 with
  | error e1 =>
    rw [loadUrlIntoIframe_first_load_rejects B w e1 s1 h1] at hok
    rw [callsSince_append w _ _ rfl] at hok
    simp at hok
  | ok v =>
    cases hv : v.truthy with
    | true =>
      rw [loadUrlIntoIframe_first_load_truthy B w v s1 h1 hv]
      exact ⟨_, Or.inl rfl, rfl⟩
    | false =>
      rcases h2 : B Command.generate_new_random_link s1 with ⟨r2, s2⟩
      cases r2 with
      | error e2 =>
        rw [loadUrlIntoIframe_generate_rejects B w v e2 s1 s2 h1 hv h2] at hok
        rw [callsSince_append w _ _ rfl] at hok
        simp at hok
      | ok g =>
        rcases h3 : B Command.load_decrypted_url_from_config_command s2 with ⟨r3, s3⟩
        cases r3 with
        | error e3 =>
          rw [loadUrlIntoIframe_second_load_rejects B w v g e3 s1 s2 s3 h1 hv h2 h3] at hok
          rw [callsSince_append w _ _ rfl] at hok
          simp at hok
        | ok v2 =>
          rw [loadUrlIntoIframe_generated B w v g v2 s1 s2 s3 h1 hv h2 h3]
          exact ⟨_, Or.inr rfl, rfl⟩

/-- Instance of the amended C7: the stored URL is loaded and logged. -/
theorem url_logged_with_iframe_value_witness :
    ∃ label, (label = "Loaded URL into iframe:" ∨ label = "Generated and loaded new URL:") ∧
      (loadUrlIntoIframe scripted
          (pageWith [Except.ok (JsVal.str "https://vdo.ninja/?push=abc")])).2.console =
        (pageWith [Except.ok (JsVal.str "https://vdo.ninja/?push=abc")]).console ++
          [LogEntry.mk LogLevel.log label
            (loadUrlIntoIframe scripted
              (pageWith [Except.ok (JsVal.str "https://vdo.ninja/?push=abc")])).2.dom.vdoNinjaIframeSrc] :=
  (url_logged_with_iframe_value scripted
      (pageWith [Except.ok (JsVal.str "https://vdo.ninja/?push=abc")])).1
    (by
      rw [loadUrlIntoIframe_first_load_truthy scripted
        (pageWith [Except.ok (JsVal.str "https://vdo.ninja/?push=abc")])
        (JsVal.str "https://vdo.ninja/?push=abc") [] rfl (by decide)]
      rw [callsSince_append _ _ _ rfl]
      intro c hc
      simp at hc
      exact ⟨_, by rw [hc]⟩)

/-! ## Character-set validation of the manual link -/

/-- The modelled `setManualLink` on a non-empty `pushId` with a character
outside the URL-safe set in either field: it fails and changes nothing. -/
theorem setManualLink_unsafe (urlSafe : Char → Bool) (pushId audience : String)
    (s : LinkManagerState) (hp : pushId ≠ "")
    (hbad : ∃ c, (c ∈ pushId.data ∨ c ∈ audience.data) ∧ urlSafe c = false) :
    setManualLink urlSafe pushId audience s = (Except.error ValidationError.invalidCharacters, s) := by
  have hall : (pushId.data.all urlSafe && audience.data.all urlSafe) = false := by
    rcases hbad with ⟨c, hc | hc, hcs⟩
    · have : pushId.data.all urlSafe = false := by
        rw [List.all_eq_false]
        exact ⟨c, hc, by simp [hcs]⟩
      simp [this]
    · have : audience.data.all urlSafe = false := by
        rw [List.all_eq_false]
        exact ⟨c, hc, by simp [hcs]⟩
      simp [this]
  simp [setManualLink, hp, hall]

/-- C8: with the backend command modelled from the specification, a save click
whose pushId or audience holds a character outside the URL-safe set fails with
a validation error and sets no link: the dialog is not closed, the Link
Manager state (stored link and broadcasts) is unchanged, and the message shown
is the front-end text when pushId is empty and the backend message for invalid
characters otherwise. -/
theorem save_rejects_unsafe_characters (urlSafe : Char → Bool)
    (message : ValidationError → String) (others : Backend LinkManagerState)
    (closeResult : Except String Unit) (w : World Dialog LinkManagerState)
    (hbad : ∃ c, (c ∈ w.dom.push_id.data ∨ c ∈ w.dom.audience.data) ∧ urlSafe c = false) :
    (saveBtnClick (manualLinkBackend urlSafe message others) closeResult w).2.dom.closed
      = w.dom.closed ∧
    (saveBtnClick (manualLinkBackend urlSafe message others) closeResult w).2.backend
      = w.backend ∧
    (saveBtnClick (manualLinkBackend urlSafe message others) closeResult w).2.dom.errorMessage =
      (if w.dom.push_id = "" then "Push ID (Room Name) is required."
       else message ValidationError.invalidCharacters) := by
  by_cases h : w.dom.push_id = ""
  · rw [saveBtnClick_empty _ closeResult w h]
    simp [h]
  · rw [saveBtnClick_nonempty _ closeResult w h]
    have hB : manualLinkBackend urlSafe message others w.dom.saveCommand w.backend =
        (Except.error (message ValidationError.invalidCharacters), w.backend) := by
      simp [manualLinkBackend, Dialog.saveCommand,
        setManualLink_unsafe urlSafe w.dom.push_id w.dom.audience w.backend h hbad]
    simp [hB, h]

/-- Instance of C8: the pushId "room 42" holds a space, which is outside the
unreserved set (as are `&` and `#`); the save fails and no link is stored. -/
theorem save_rejects_unsafe_characters_witness :
    (unreserved ' ' = false ∧ unreserved '&' = false ∧ unreserved '#' = false) ∧
    (saveBtnClick (manualLinkBackend unreserved validationMessage noOtherCommands)
        (Except.ok ()) (managedDialogWith "room 42" "viewerKeyABC")).2.dom.closed = false ∧
    (saveBtnClick (manualLinkBackend unreserved validationMessage noOtherCommands)
        (Except.ok ()) (managedDialogWith "room 42" "viewerKeyABC")).2.backend.stored = none ∧
    (saveBtnClick (manualLinkBackend unreserved validationMessage noOtherCommands)
        (Except.ok ()) (managedDialogWith "room 42" "viewerKeyABC")).2.dom.errorMessage
      = "Only URL-safe characters are allowed." :=
  have h := save_rejects_unsafe_characters unreserved validationMessage noOtherCommands
    (Except.ok ()) (managedDialogWith "room 42" "viewerKeyABC") ⟨' ', Or.inl (by decide), by decide⟩
  ⟨⟨by decide, by decide, by decide⟩, h.1, congrArg LinkManagerState.stored h.2.1, h.2.2⟩

end VdoNinjaAudience
